import Mathlib

/-! OTP issue, verification and delivery-status webhook.

A shallow embedding of `functions/index.js`: the callable functions `sendOTP` and
`verifyOTP`, the HTTP function `twilioWebhook` and the helper `buildEmailTemplate`.

* The document store is a record of three collections (`mail`, `sms_logs`, `otpCodes`).
  A collection is a list of documents; a document is identified by its position, and
  `add` appends.  Where Firestore would break a tie between equal sort keys by document
  name, the embedding breaks it by position.
* Timestamps are natural numbers of milliseconds.  `Date.now()` / `Timestamp.now()` (the
  clock of the function instance) and `FieldValue.serverTimestamp()` (the time the store
  assigns to a write) are separate inputs.
* Request fields that the handlers test with `!field` are `Option String`: `none` is an
  absent field, `some ""` the empty string; both are falsy.  `name` is taken as present.
* In `sendOTP` every external call made inside one of the three guarded steps, and the
  write made inside the SMS error handler, has both outcomes; they are read from `SendEnv`.
  The query and the single-document update of `verifyOTP` and `twilioWebhook` are taken
  to succeed, so in those two handlers the catch-all is reached by a thrown validation
  error only.
-/

namespace StudentTracker

/-! ## JavaScript string operations -/

/-- Code points removed by `String.prototype.trim` (WhiteSpace and LineTerminator). -/
def isJsWhiteSpace (c : Char) : Bool :=
  c.toNat ∈ [0x09, 0x0A, 0x0B, 0x0C, 0x0D, 0x20, 0xA0, 0x1680, 0x2028, 0x2029, 0x202F,
    0x205F, 0x3000, 0xFEFF] || (0x2000 ≤ c.toNat && c.toNat ≤ 0x200A)

/-- The method `s.trim()`: drop white space at both ends. -/
def trim (s : String) : String :=
  String.mk ((s.data.dropWhile isJsWhiteSpace).reverse.dropWhile isJsWhiteSpace).reverse

/-- The method `s.toLowerCase()`, on the letters `A`..`Z`; other characters are kept. -/
def toLowerCase (s : String) : String :=
  String.mk (s.data.map Char.toLower)

/-- The test `s.startsWith('+')`. -/
def startsWithPlus (s : String) : Bool :=
  s.data.head? == some '+'

/-- The replacement `s.replace(/^0+/, '')`: remove the leading run of `0` characters. -/
def stripLeadingZeros (s : String) : String :=
  String.mk (s.data.dropWhile (fun c => c == '0'))

/-- The value of `type || 'registration'`: an absent or empty `type` gives the default. -/
def typeOrDefault : Option String → String
  | some t => if t = "" then "registration" else t
  | none => "registration"

/-! ## Documents and the store -/

structure MailMessage where
  subject : String
  html : String
  deriving DecidableEq, Repr

/-- A document of the `mail` collection. -/
structure MailDoc where
  to_ : List String
  message : MailMessage
  createdAt : Nat
  status : String
  type : String
  deriving DecidableEq, Repr

structure SmsMetadata where
  email : String
  name : String
  otpCode : String
  deriving DecidableEq, Repr

/-- A document of the `sms_logs` collection.  The two shapes written by `sendOTP` share
the fields `to`, `message`, `type` and `status`; a field one shape lacks is `none`. -/
structure SmsLog where
  to_ : String
  originalPhone : Option String
  message : String
  type : String
  status : String
  twilioSid : Option String
  twilioStatus : Option String
  sentAt : Option Nat
  metadata : Option SmsMetadata
  error : Option String
  failedAt : Option Nat
  lastUpdated : Option Nat
  deriving DecidableEq, Repr

/-- A document of the `otpCodes` collection. -/
structure OtpRecord where
  email : String
  phone : String
  code : String
  used : Bool
  attempts : Nat
  createdAt : Nat
  expiresAt : Nat
  type : String
  verifiedAt : Option Nat
  deriving DecidableEq, Repr

structure Store where
  mail : List MailDoc
  sms_logs : List SmsLog
  otpCodes : List OtpRecord
  deriving DecidableEq, Repr

/-! ## Errors and external outcomes -/

/-- The error `functions.https.HttpsError(code, message)` a callable function fails with. -/
structure HttpsError where
  code : String
  message : String
  deriving DecidableEq, Repr

/-- A value thrown inside a handler's `try` block: an `HttpsError` raised by the handler,
or the `Error` of a rejected store call. -/
inductive Thrown where
  | httpsError (e : HttpsError)
  | error (message : String)
  deriving DecidableEq, Repr

deriving instance DecidableEq for Except

/-- The property `error.message` read by the catch-all. -/
def Thrown.message : Thrown → String
  | .httpsError e => e.message
  | .error m => m

/-- What a successful `collection.add` hands back: the new document's id, and the time the
store put in place of `serverTimestamp()`. -/
structure WriteAck where
  id : String
  time : Nat
  deriving DecidableEq, Repr

/-- The gateway's answer to `messages.create`. -/
structure TwilioMessage where
  sid : String
  status : String
  deriving DecidableEq, Repr

/-- Outcome of an awaited external call: the error message of a rejection, or the value. -/
inductive Outcome (α : Type) where
  | rejected (message : String)
  | resolved (value : α)
  deriving DecidableEq, Repr

/-- Everything `sendOTP` reads from outside its arguments and the store. -/
structure SendEnv where
  now : Nat
  mailAdd : Outcome WriteAck
  twilioCreate : Outcome TwilioMessage
  smsLogAdd : Outcome WriteAck
  smsFailedLogAdd : Outcome WriteAck
  otpAdd : Outcome WriteAck
  deriving DecidableEq, Repr

/-! ## `buildEmailTemplate` -/

/-- The HTML document of the verification e-mail. -/
def buildEmailTemplate (name otpCode : String) : String :=
  "\n" ++
  "    <!DOCTYPE html>\n" ++
  "    <html>\n" ++
  "    <head>\n" ++
  "      <meta charset=\"UTF-8\">\n" ++
  "      <meta name=\"viewport\" content=\"width=device-width, initial-scale=1.0\">\n" ++
  "    </head>\n" ++
  "    <body style=\"margin: 0; padding: 0; font-family: Arial, sans-serif; background-color: #f4f4f4;\">\n" ++
  "      <div style=\"max-width: 600px; margin: 0 auto; background-color: #ffffff;\">\n" ++
  "        <div style=\"background: linear-gradient(135deg, #0A1929 0%, #1A2F3F 100%); padding: 30px; text-align: center;\">\n" ++
  "          <h1 style=\"color: #ffffff; margin: 0; font-size: 28px;\">findMe</h1>\n" ++
  "          <p style=\"color: #ffffff; margin: 10px 0 0 0; font-size: 14px;\">School Safety & Security Tracking System</p>\n" ++
  "        </div>\n" ++
  "\n" ++
  "        <div style=\"padding: 40px 30px;\">\n" ++
  "          <h2 style=\"color: #333333; margin: 0 0 20px 0; font-size: 24px;\">Welcome, " ++
  name ++
  "!</h2>\n" ++
  "\n" ++
  "          <p style=\"color: #666666; font-size: 16px; line-height: 1.6; margin: 0 0 20px 0;\">\n" ++
  "            Thank you for registering with S3TS. To complete your registration, please use the verification code below:\n" ++
  "          </p>\n" ++
  "\n" ++
  "          <div style=\"background-color: #f8f9fa; padding: 30px; text-align: center; border-radius: 10px; margin: 30px 0;\">\n" ++
  "            <div style=\"font-size: 36px; font-weight: bold; letter-spacing: 10px; color: #0A1929; font-family: 'Courier New', monospace;\">\n" ++
  "              " ++
  otpCode ++
  "\n" ++
  "            </div>\n" ++
  "          </div>\n" ++
  "\n" ++
  "          <div style=\"background-color: #fff3cd; border-left: 4px solid #ffc107; padding: 15px; margin: 20px 0; border-radius: 4px;\">\n" ++
  "            <p style=\"margin: 0; color: #856404; font-size: 14px;\">\n" ++
  "              <strong>⚠️ Important:</strong> This code will expire in 10 minutes.\n" ++
  "            </p>\n" ++
  "          </div>\n" ++
  "\n" ++
  "          <p style=\"color: #666666; font-size: 14px; line-height: 1.6; margin: 20px 0 0 0;\">\n" ++
  "            If you didn't request this code, please ignore this email or contact our support team if you have concerns.\n" ++
  "          </p>\n" ++
  "        </div>\n" ++
  "\n" ++
  "        <div style=\"background-color: #f8f9fa; padding: 20px 30px; border-top: 1px solid #e9ecef;\">\n" ++
  "          <p style=\"margin: 0; color: #999999; font-size: 12px; text-align: center;\">\n" ++
  "            © 2024 findMe. All rights reserved.<br>\n" ++
  "            This is an automated message, please do not reply.\n" ++
  "          </p>\n" ++
  "        </div>\n" ++
  "      </div>\n" ++
  "    </body>\n" ++
  "    </html>\n" ++
  "  "

/-! ## `sendOTP` -/

structure SendRequest where
  email : Option String
  phone : Option String
  name : String
  otpCode : Option String
  type : Option String
  deriving DecidableEq, Repr

/-- The entry `results.email`: `{success: true, id}` or `{success: false, error}`. -/
inductive EmailResult where
  | ok (id : String)
  | failed (error : String)
  deriving DecidableEq, Repr

/-- The entry `results.sms`: `{success: true, twilioSid, status, phone}` or
`{success: false, error}`. -/
inductive SmsResult where
  | ok (twilioSid status phone : String)
  | failed (error : String)
  deriving DecidableEq, Repr

/-- The entry `results.firestore`: `{success: true, id}` or `{success: false, error}`. -/
inductive FirestoreResult where
  | ok (id : String)
  | failed (error : String)
  deriving DecidableEq, Repr

def EmailResult.success : EmailResult → Bool
  | .ok _ => true
  | .failed _ => false

def SmsResult.success : SmsResult → Bool
  | .ok _ _ _ => true
  | .failed _ => false

def FirestoreResult.success : FirestoreResult → Bool
  | .ok _ => true
  | .failed _ => false

structure Results where
  email : EmailResult
  sms : SmsResult
  firestore : FirestoreResult
  deriving DecidableEq, Repr

structure SendResponse where
  success : Bool
  results : Results
  message : String
  deriving DecidableEq, Repr

/-- The normalisation `email.toLowerCase().trim()` used by both handlers. -/
def normalizeEmail (email : String) : String :=
  trim (toLowerCase email)

/-- Lines 63-69: the destination number handed to the gateway. -/
def formatPhone (phone : String) : String :=
  let formattedPhone := trim phone
  if !startsWithPlus formattedPhone then "+233" ++ stripLeadingZeros formattedPhone
  else formattedPhone

/-- Line 71: the text of the SMS. -/
def smsMessage (name otpCode : String) : String :=
  "Hello " ++ name ++ ", your S3TS verification code is: " ++ otpCode ++
    ". Valid for 10 minutes. Do not share this code."

/-- Lines 42-51: the document queued in `mail`. -/
def emailData (email name otpCode : String) (type : Option String) (createdAt : Nat) :
    MailDoc where
  to_ := [normalizeEmail email]
  message := ⟨"S3TS Account Registration - Verification Code", buildEmailTemplate name otpCode⟩
  createdAt := createdAt
  status := "pending"
  type := typeOrDefault type

/-- Lines 82-96: the log entry written after the gateway accepted the message. -/
def sentLog (email phone name otpCode : String) (resp : TwilioMessage) (sentAt : Nat) :
    SmsLog where
  to_ := formatPhone phone
  originalPhone := some phone
  message := smsMessage name otpCode
  type := "otp"
  status := "sent"
  twilioSid := some resp.sid
  twilioStatus := some resp.status
  sentAt := some sentAt
  metadata := some ⟨email, name, otpCode⟩
  error := none
  failedAt := none
  lastUpdated := none

/-- Lines 111-118: the log entry written by the SMS error handler. -/
def failedLog (phone otpCode error : String) (failedAt : Nat) : SmsLog where
  to_ := phone
  originalPhone := none
  message := "OTP: " ++ otpCode
  type := "otp"
  status := "failed"
  twilioSid := none
  twilioStatus := none
  sentAt := none
  metadata := none
  error := some error
  failedAt := some failedAt
  lastUpdated := none

/-- Lines 123-134: the OTP record; `expiresAt` is `Date.now() + 10 * 60 * 1000`. -/
def otpData (now : Nat) (email phone otpCode : String) (type : Option String)
    (createdAt : Nat) : OtpRecord where
  email := normalizeEmail email
  phone := trim phone
  code := otpCode
  used := false
  attempts := 0
  createdAt := createdAt
  expiresAt := now + 10 * 60 * 1000
  type := typeOrDefault type
  verifiedAt := none

/-- Step 1 (lines 41-59): queue the e-mail; a rejected write is recorded, not raised. -/
def emailStep (env : SendEnv) (st : Store) (email name otpCode : String)
    (type : Option String) : Store × EmailResult :=
  match env.mailAdd with
  | .resolved emailDoc =>
    ({ st with mail := st.mail ++ [emailData email name otpCode type emailDoc.time] },
      .ok emailDoc.id)
  | .rejected emailError => (st, .failed emailError)

/-- The `try` block of step 2 (lines 63-105): send the SMS, then log it. -/
def smsTry (env : SendEnv) (st : Store) (email phone name otpCode : String) :
    Outcome (Store × SmsResult) :=
  match env.twilioCreate with
  | .rejected e => .rejected e
  | .resolved twilioResponse =>
    match env.smsLogAdd with
    | .rejected e => .rejected e
    | .resolved ack =>
      .resolved
        ({ st with
            sms_logs := st.sms_logs ++ [sentLog email phone name otpCode twilioResponse ack.time] },
          .ok twilioResponse.sid twilioResponse.status (formatPhone phone))

/-- Step 2 (lines 62-119).  Whatever the `try` block throws is recorded in `results.sms`
and a `failed` entry is written; that write is awaited inside the handler, so its own
rejection leaves the step as a thrown error. -/
def smsStep (env : SendEnv) (st : Store) (email phone name otpCode : String) :
    Outcome (Store × SmsResult) :=
  match smsTry env st email phone name otpCode with
  | .resolved r => .resolved r
  | .rejected smsError =>
    match env.smsFailedLogAdd with
    | .resolved ack =>
      .resolved
        ({ st with sms_logs := st.sms_logs ++ [failedLog phone otpCode smsError ack.time] },
          .failed smsError)
    | .rejected e => .rejected e

/-- Step 3 (lines 122-142): persist the OTP record; a rejected write is recorded. -/
def firestoreStep (env : SendEnv) (st : Store) (email phone otpCode : String)
    (type : Option String) : Store × FirestoreResult :=
  match env.otpAdd with
  | .resolved otpDoc =>
    ({ st with otpCodes := st.otpCodes ++ [otpData env.now email phone otpCode type otpDoc.time] },
      .ok otpDoc.id)
  | .rejected firestoreError => (st, .failed firestoreError)

/-- The body of the outer `try` of `sendOTP` (lines 22-153). -/
def sendOTPTry (env : SendEnv) (st : Store) (data : SendRequest) :
    Store × Except Thrown SendResponse :=
  match data.email, data.phone, data.otpCode with
  | some email, some phone, some otpCode =>
    if email = "" ∨ phone = "" ∨ otpCode = "" then
      (st, .error (.httpsError ⟨"invalid-argument", "Email, phone, and OTP code are required"⟩))
    else
      let (st1, emailRes) := emailStep env st email data.name otpCode data.type
      match smsStep env st1 email phone data.name otpCode with
      | .rejected e => (st1, .error (.error e))
      | .resolved (st2, smsRes) =>
        let (st3, firestoreRes) := firestoreStep env st2 email phone otpCode data.type
        let overallSuccess := emailRes.success || smsRes.success
        (st3, .ok
          { success := overallSuccess
            results := ⟨emailRes, smsRes, firestoreRes⟩
            message :=
              if overallSuccess then "OTP sent successfully"
              else "Failed to send OTP via all channels" })
  | _, _, _ =>
    (st, .error (.httpsError ⟨"invalid-argument", "Email, phone, and OTP code are required"⟩))

/-- The callable `sendOTP` (lines 20-161): whatever the body throws, the validation error
included, is caught at line 154 and raised again with code `internal`. -/
def sendOTP (env : SendEnv) (st : Store) (data : SendRequest) :
    Store × Except HttpsError SendResponse :=
  match sendOTPTry env st data with
  | (st', .ok response) => (st', .ok response)
  | (st', .error error) => (st', .error ⟨"internal", "Failed to send OTP: " ++ error.message⟩)

/-! ## `verifyOTP` -/

structure VerifyRequest where
  email : Option String
  code : Option String
  deriving DecidableEq, Repr

structure VerifyResponse where
  success : Bool
  message : String
  deriving DecidableEq, Repr

/-- The sort order `orderBy('createdAt', 'desc')` on indexed documents. -/
def createdAtDesc (a b : Nat × OtpRecord) : Prop :=
  b.2.createdAt ≤ a.2.createdAt

instance createdAtDesc.decidableRel : DecidableRel createdAtDesc :=
  fun a b => Nat.decLe b.2.createdAt a.2.createdAt

instance createdAtDesc.isTotal : IsTotal (Nat × OtpRecord) createdAtDesc :=
  ⟨fun a b => Nat.le_total b.2.createdAt a.2.createdAt⟩

instance createdAtDesc.isTrans : IsTrans (Nat × OtpRecord) createdAtDesc :=
  ⟨fun _ _ _ hab hbc => Nat.le_trans hbc hab⟩

/-- The three `where` clauses of lines 183-185. -/
def otpMatches (email code : String) (r : OtpRecord) : Bool :=
  r.email == email && r.code == code && r.used == false

/-- The query of lines 180-188: documents of `otpCodes` (with their positions) that pass
the three filters, newest first, at most one. -/
def otpQuery (otpCodes : List OtpRecord) (email code : String) : List (Nat × OtpRecord) :=
  ((otpCodes.enum.filter (fun d => otpMatches email code d.2)).insertionSort
    createdAtDesc).take 1

/-- The body of the `try` of `verifyOTP` (lines 168-231).  `now` is `Timestamp.now()`,
`serverTime` the value the store writes for `verifiedAt`. -/
def verifyOTPTry (now serverTime : Nat) (st : Store) (data : VerifyRequest) :
    Store × Except Thrown VerifyResponse :=
  match data.email, data.code with
  | some email, some code =>
    if email = "" ∨ code = "" then
      (st, .error (.httpsError ⟨"invalid-argument", "Email and OTP code are required"⟩))
    else
      match otpQuery st.otpCodes (normalizeEmail email) (trim code) with
      | [] => (st, .ok ⟨false, "Invalid OTP code"⟩)
      | (i, otpData) :: _ =>
        if now > otpData.expiresAt then
          (st, .ok ⟨false, "OTP has expired. Please request a new code."⟩)
        else if otpData.attempts ≥ 3 then
          (st, .ok ⟨false, "Too many verification attempts. Please request a new code."⟩)
        else
          ({ st with
              otpCodes :=
                st.otpCodes.set i { otpData with used := true, verifiedAt := some serverTime } },
            .ok ⟨true, "OTP verified successfully"⟩)
  | _, _ =>
    (st, .error (.httpsError ⟨"invalid-argument", "Email and OTP code are required"⟩))

/-- The callable `verifyOTP` (lines 166-239), with the catch-all of line 232. -/
def verifyOTP (now serverTime : Nat) (st : Store) (data : VerifyRequest) :
    Store × Except HttpsError VerifyResponse :=
  match verifyOTPTry now serverTime st data with
  | (st', .ok response) => (st', .ok response)
  | (st', .error error) =>
    (st', .error ⟨"internal", "Failed to verify OTP: " ++ error.message⟩)

/-! ## `twilioWebhook` -/

/-- Whether an awaited call resolved. -/
def Outcome.isResolved {α : Type} : Outcome α → Bool
  | .resolved _ => true
  | .rejected _ => false

/-! ## Sample data -/

def emptyStore : Store := ⟨[], [], []⟩

/-- Every external call succeeds; the issuer's clock reads 1000 and the store stamps the
OTP record at 1004. -/
def allOk : SendEnv where
  now := 1000
  mailAdd := .resolved ⟨"mail1", 1001⟩
  twilioCreate := .resolved ⟨"SMxxxx", "queued"⟩
  smsLogAdd := .resolved ⟨"sms1", 1002⟩
  smsFailedLogAdd := .resolved ⟨"sms2", 1003⟩
  otpAdd := .resolved ⟨"otp1", 1004⟩

/-- The gateway accepts the message but the `sent` log entry cannot be written. -/
def sentLogDown : SendEnv :=
  { allOk with smsLogAdd := .rejected "unavailable" }

/-- The gateway rejects the message and the handler's `failed` log entry cannot be
written. -/
def smsAndLogDown : SendEnv :=
  { allOk with
    twilioCreate := .rejected "Twilio unreachable"
    smsFailedLogAdd := .rejected "unavailable" }

def sampleRequest : SendRequest :=
  ⟨some "a@b.com", some "0557881454", "Ama", some "123456", none⟩

/-- The record `sendOTP allOk` stores for `sampleRequest`. -/
def sampleOtp : OtpRecord :=
  ⟨"a@b.com", "0557881454", "123456", false, 0, 1004, 601000, "registration", none⟩

def storeWithOtp : Store := ⟨[], [], [sampleOtp]⟩

theorem otpQuery_eq_cons (l : List OtpRecord) (e c : String) (i : Nat) (r : OtpRecord)
    (rest : List (Nat × OtpRecord)) (h : otpQuery l e c = (i, r) :: rest) :
    rest = [] ∧ l[i]? = some r ∧ otpMatches e c r = true ∧
      ∀ r' ∈ l, otpMatches e c r' = true → r'.createdAt ≤ r.createdAt := by
  unfold otpQuery at h
  generalize hS : (l.enum.filter (fun d => otpMatches e c d.2)).insertionSort createdAtDesc = S
    at h
  have hsorted : S.Sorted createdAtDesc := hS ▸ List.sorted_insertionSort _ _
  have hmem : ∀ x, x ∈ S ↔ x ∈ l.enum.filter (fun d => otpMatches e c d.2) := by
    intro x; rw [← hS]; exact List.mem_insertionSort _
  cases S with
  | nil => simp at h
  | cons x xs =>
    simp only [List.take_succ_cons, List.take_zero, List.cons.injEq] at h
    obtain ⟨rfl, hrest⟩ := h
    have hx := (hmem (i, r)).1 (List.mem_cons_self _ _)
    rw [List.mem_filter, List.mem_enum_iff_getElem?] at hx
    refine ⟨hrest.symm, hx.1, hx.2, ?_⟩
    intro r' hr' hm
    obtain ⟨j, hj, rfl⟩ := List.getElem_of_mem hr'
    have hin : (j, l[j]) ∈ (i, r) :: xs := by
      rw [hmem, List.mem_filter, List.mem_enum_iff_getElem?]
      exact ⟨by simp [hj], hm⟩
    rcases List.mem_cons.1 hin with heq | hxs
    · have : l[j] = r := congrArg Prod.snd heq
      rw [this]
    · exact List.rel_of_sorted_cons hsorted _ hxs

theorem verifyOTPTry_valid (now serverTime : Nat) (st : Store) (email code : String)
    (he : email ≠ "") (hc : code ≠ "") :
    verifyOTPTry now serverTime st ⟨some email, some code⟩ =
      match otpQuery st.otpCodes (normalizeEmail email) (trim code) with
      | [] => (st, .ok ⟨false, "Invalid OTP code"⟩)
      | (i, otpData) :: _ =>
        if now > otpData.expiresAt then
          (st, .ok ⟨false, "OTP has expired. Please request a new code."⟩)
        else if otpData.attempts ≥ 3 then
          (st, .ok ⟨false, "Too many verification attempts. Please request a new code."⟩)
        else
          ({ st with
              otpCodes :=
                st.otpCodes.set i { otpData with used := true, verifiedAt := some serverTime } },
            .ok ⟨true, "OTP verified successfully"⟩) := by
  simp [verifyOTPTry, he, hc]

theorem verifyOTP_valid (now serverTime : Nat) (st : Store) (email code : String)
    (he : email ≠ "") (hc : code ≠ "") :
    verifyOTP now serverTime st ⟨some email, some code⟩ =
      match otpQuery st.otpCodes (normalizeEmail email) (trim code) with
      | [] => (st, .ok ⟨false, "Invalid OTP code"⟩)
      | (i, otpData) :: _ =>
        if now > otpData.expiresAt then
          (st, .ok ⟨false, "OTP has expired. Please request a new code."⟩)
        else if otpData.attempts ≥ 3 then
          (st, .ok ⟨false, "Too many verification attempts. Please request a new code."⟩)
        else
          ({ st with
              otpCodes :=
                st.otpCodes.set i { otpData with used := true, verifiedAt := some serverTime } },
            .ok ⟨true, "OTP verified successfully"⟩) := by
  unfold verifyOTP
  rw [verifyOTPTry_valid now serverTime st email code he hc]
  cases otpQuery st.otpCodes (normalizeEmail email) (trim code) with
  | nil => rfl
  | cons d ds =>
    obtain ⟨i, r⟩ := d
    dsimp only
    split_ifs <;> rfl

/-- C8 (amended): the `sms_logs` entry of a valid request, when the write of that entry
succeeds.  Gateway accepted and log written: one new entry, `sent`, with the gateway id and
status.  Gateway send failed and handler write succeeded: one new entry, `failed`, with the
gateway error text.  Gateway accepted but the `sent` write rejected, handler write
succeeded: one new entry, `failed`, with the store error text. -/
theorem sendOTP_sms_log (env : SendEnv) (st : Store) (e p c name : String)
    (type : Option String) (he : e ≠ "") (hp : p ≠ "") (hc : c ≠ "") :
    (∀ m ack, env.twilioCreate = .resolved m → env.smsLogAdd = .resolved ack →
      ∃ entry, (sendOTP env st ⟨some e, some p, name, some c, type⟩).1.sms_logs =
          st.sms_logs ++ [entry] ∧
        entry.status = "sent" ∧ entry.twilioSid = some m.sid ∧
        entry.twilioStatus = some m.status ∧ entry.to_ = formatPhone p) ∧
    (∀ err ack, env.twilioCreate = .rejected err → env.smsFailedLogAdd = .resolved ack →
      ∃ entry, (sendOTP env st ⟨some e, some p, name, some c, type⟩).1.sms_logs =
          st.sms_logs ++ [entry] ∧
        entry.status = "failed" ∧ entry.error = some err ∧ entry.twilioSid = none) ∧
    (∀ m err ack, env.twilioCreate = .resolved m → env.smsLogAdd = .rejected err →
      env.smsFailedLogAdd = .resolved ack →
      ∃ entry, (sendOTP env st ⟨some e, some p, name, some c, type⟩).1.sms_logs =
          st.sms_logs ++ [entry] ∧
        entry.status = "failed" ∧ entry.error = some err ∧ entry.twilioSid = none) := by
  obtain ⟨now, mailAdd, twilioCreate, smsLogAdd, smsFailedLogAdd, otpAdd⟩ := env
  refine ⟨?_, ?_, ?_⟩
  · intro m ack h1 h2
    simp only at h1 h2
    subst h1 h2
    refine ⟨sentLog e p name c m ack.time, ?_, rfl, rfl, rfl, rfl⟩
    cases mailAdd <;> cases otpAdd <;>
      simp [sendOTP, sendOTPTry, emailStep, smsStep, smsTry, firestoreStep, he, hp, hc]
  · intro err ack h1 h2
    simp only at h1 h2
    subst h1 h2
    refine ⟨failedLog p c err ack.time, ?_, rfl, rfl, rfl⟩
    cases mailAdd <;> cases otpAdd <;>
      simp [sendOTP, sendOTPTry, emailStep, smsStep, smsTry, firestoreStep, he, hp, hc]
  · intro m err ack h1 h2 h3
    simp only at h1 h2 h3
    subst h1 h2 h3
    refine ⟨failedLog p c err ack.time, ?_, rfl, rfl, rfl⟩
    cases mailAdd <;> cases otpAdd <;>
      simp [sendOTP, sendOTPTry, emailStep, smsStep, smsTry, firestoreStep, he, hp, hc]

theorem stripLeadingZeros_spec (s : String) :
    ∃ k, s.data = List.replicate k '0' ++ (stripLeadingZeros s).data ∧
      (stripLeadingZeros s).data.head? ≠ some '0' := by
  obtain ⟨l⟩ := s
  simp only [stripLeadingZeros]
  induction l with
  | nil => exact ⟨0, by simp, by simp⟩
  | cons a l ih =>
    by_cases ha : a = '0'
    · obtain ⟨k, hk, hh⟩ := ih
      refine ⟨k + 1, ?_, ?_⟩
      · subst ha
        simp only [List.dropWhile_cons, beq_self_eq_true, if_true, List.replicate_succ,
          List.cons_append, List.cons.injEq, true_and]
        exact hk
      · subst ha
        simpa [List.dropWhile_cons] using hh
    · refine ⟨0, ?_, ?_⟩
      · simp [List.dropWhile_cons, ha]
      · simp [List.dropWhile_cons, ha]

/-- C7 (amended): the SMS destination is computed from the trimmed phone string `q`.  If
`q` does not start with `+` the destination is `+233` followed by `q` without its leading
run of `0` characters (what is left does not start with `0`); if `q` starts with `+` the
destination is `q`. -/
theorem formatPhone_spec (p : String) :
    (startsWithPlus (trim p) = false →
      ∃ k rest, (trim p).data = List.replicate k '0' ++ rest ∧ rest.head? ≠ some '0' ∧
        formatPhone p = "+233" ++ String.mk rest) ∧
    (startsWithPlus (trim p) = true → formatPhone p = trim p) := by
  constructor
  · intro h
    obtain ⟨k, hk, hh⟩ := stripLeadingZeros_spec (trim p)
    exact ⟨k, (stripLeadingZeros (trim p)).data, hk, hh, by simp [formatPhone, h]⟩
  · intro h
    simp [formatPhone, h]

/-- No `verifyOTP` call changes any record's attempt count. -/
theorem verifyOTP_attempts_unchanged (now serverTime : Nat) (st : Store)
    (data : VerifyRequest) :
    (verifyOTP now serverTime st data).1.otpCodes.map OtpRecord.attempts =
      st.otpCodes.map OtpRecord.attempts := by
  obtain ⟨email, code⟩ := data
  cases email with
  | none => rfl
  | some email =>
    cases code with
    | none => rfl
    | some code =>
      by_cases hv : email = "" ∨ code = ""
      · simp [verifyOTP, verifyOTPTry, hv]
      · have he : email ≠ "" := fun h => hv (Or.inl h)
        have hc : code ≠ "" := fun h => hv (Or.inr h)
        rw [verifyOTP_valid now serverTime st email code he hc]
        cases hq : otpQuery st.otpCodes (normalizeEmail email) (trim code) with
        | nil => rfl
        | cons x xs =>
          obtain ⟨i, r⟩ := x
          obtain ⟨-, hget, -, -⟩ := otpQuery_eq_cons _ _ _ _ _ _ hq
          dsimp only
          split_ifs
          · rfl
          · rfl
          · simp only
            apply List.ext_getElem?
            intro n
            by_cases hn : i = n
            · subst hn
              simp only [List.getElem?_set, List.getElem?_map, hget, if_true, List.length_map,
                List.length_set, Option.map_some']
              rw [if_pos (List.getElem?_eq_some_iff.1 hget).1]
              rfl
            · simp [List.getElem?_set, hn]

/-- Whatever `sendOTP` fails with carries the code `internal`. -/
theorem sendOTP_error_code (env : SendEnv) (st : Store) (data : SendRequest)
    (e : HttpsError) (h : (sendOTP env st data).2 = .error e) : e.code = "internal" := by
  unfold sendOTP at h
  split at h
  · cases h
  · simp only [Except.error.injEq] at h
    rw [← h]

/-- Whatever `verifyOTP` fails with carries the code `internal`. -/
theorem verifyOTP_error_code (now serverTime : Nat) (st : Store) (data : VerifyRequest)
    (e : HttpsError) (h : (verifyOTP now serverTime st data).2 = .error e) :
    e.code = "internal" := by
  unfold verifyOTP at h
  split at h
  · cases h
  · simp only [Except.error.injEq] at h
    rw [← h]

/-! ## Evaluations at concrete inputs -/

/-- C3 (evaluation): three failed verifications for `a@b.com` leave the record's attempt
count at 0, and the fourth call, with the right code, succeeds. -/
theorem verifyOTP_no_lockout_after_three_failures :
    verifyOTP 2000 2001 storeWithOtp ⟨some "a@b.com", some "000000"⟩ =
      (storeWithOtp, .ok ⟨false, "Invalid OTP code"⟩) ∧
    verifyOTP 3000 3001 storeWithOtp ⟨some "a@b.com", some "111111"⟩ =
      (storeWithOtp, .ok ⟨false, "Invalid OTP code"⟩) ∧
    verifyOTP 4000 4001 storeWithOtp ⟨some "a@b.com", some "222222"⟩ =
      (storeWithOtp, .ok ⟨false, "Invalid OTP code"⟩) ∧
    (verifyOTP 5000 5001 storeWithOtp ⟨some "a@b.com", some "123456"⟩).2 =
      .ok ⟨true, "OTP verified successfully"⟩ := by
  decide

/-- C4 (evaluation): a `sendOTP` request with an empty email and a `verifyOTP` request
without a code both fail with code `internal`, not `invalid-argument`; the store is
unchanged. -/
theorem validation_error_raised_as_internal :
    sendOTP allOk emptyStore ⟨some "", some "0557881454", "Ama", some "123456", none⟩ =
      (emptyStore,
        .error ⟨"internal", "Failed to send OTP: Email, phone, and OTP code are required"⟩) ∧
    verifyOTP 2000 2001 storeWithOtp ⟨some "a@b.com", none⟩ =
      (storeWithOtp,
        .error ⟨"internal", "Failed to verify OTP: Email and OTP code are required"⟩) := by
  decide

/-- C5 (evaluation): when the gateway rejects the message and the handler's `failed` log
write is rejected too, `sendOTP` raises `internal` and never writes the OTP record, although
the `otpCodes` write would have succeeded. -/
theorem sendOTP_raises_when_failed_log_rejected :
    smsAndLogDown.otpAdd.isResolved = true ∧
    (sendOTP smsAndLogDown emptyStore sampleRequest).2 =
      .error ⟨"internal", "Failed to send OTP: unavailable"⟩ ∧
    (sendOTP smsAndLogDown emptyStore sampleRequest).1.otpCodes = [] ∧
    (sendOTP smsAndLogDown emptyStore sampleRequest).1.sms_logs = [] := by
  decide

/-- C7 (counterexample): a phone string that starts with `+` and ends in a blank is not
passed through unchanged, and one that starts with a blank lacks a leading `+` but is not
mapped to `+233` followed by itself without leading zeros. -/
theorem formatPhone_untrimmed_counterexample :
    (startsWithPlus "+233557881454 " = true ∧ formatPhone "+233557881454 " ≠ "+233557881454 ") ∧
    (startsWithPlus " 0557881454" = false ∧
      formatPhone " 0557881454" ≠ "+233" ++ stripLeadingZeros " 0557881454") := by
  decide

/-- C8 (counterexample): the gateway accepted the message, the `sent` entry could not be
written, and the one entry `sendOTP` added has status `failed`, no gateway id, and the
store's error text. -/
theorem sendOTP_sms_log_counterexample :
    sentLogDown.twilioCreate = .resolved ⟨"SMxxxx", "queued"⟩ ∧
    (sendOTP sentLogDown emptyStore sampleRequest).1.sms_logs =
      [failedLog "0557881454" "123456" "unavailable" 1003] ∧
    (failedLog "0557881454" "123456" "unavailable" 1003).status = "failed" ∧
    (failedLog "0557881454" "123456" "unavailable" 1003).twilioSid = none := by
  decide

/-- Instance of `formatPhone_spec`: `0557881454` becomes `+233557881454`. -/
theorem formatPhone_spec_witness :
    startsWithPlus (trim "0557881454") = false ∧
    formatPhone "0557881454" = "+233557881454" ∧
    ∃ k rest, (trim "0557881454").data = List.replicate k '0' ++ rest ∧
      rest.head? ≠ some '0' ∧ formatPhone "0557881454" = "+233" ++ String.mk rest :=
  ⟨by decide, by decide, (formatPhone_spec "0557881454").1 (by decide)⟩

/-- Instance of `sendOTP_sms_log`: an accepted send is logged as `sent`. -/
theorem sendOTP_sms_log_witness :
    "a@b.com" ≠ "" ∧ "0557881454" ≠ "" ∧ "123456" ≠ "" ∧
    allOk.twilioCreate = .resolved ⟨"SMxxxx", "queued"⟩ ∧
    allOk.smsLogAdd = .resolved ⟨"sms1", 1002⟩ ∧
    ∃ entry,
      (sendOTP allOk emptyStore
        ⟨some "a@b.com", some "0557881454", "Ama", some "123456", none⟩).1.sms_logs =
        emptyStore.sms_logs ++ [entry] ∧
      entry.status = "sent" ∧ entry.twilioSid = some "SMxxxx" ∧
      entry.twilioStatus = some "queued" ∧ entry.to_ = formatPhone "0557881454" :=
  ⟨by decide, by decide, by decide, rfl, rfl,
    (sendOTP_sms_log allOk emptyStore "a@b.com" "0557881454" "123456" "Ama" none
      (by decide) (by decide) (by decide)).1 ⟨"SMxxxx", "queued"⟩ ⟨"sms1", 1002⟩ rfl rfl⟩

end StudentTracker
